import Mathlib

/-!
Verification development for the `dastaavej` repository (`app.py`, a
Streamlit single-file app).  The definitions below are a shallow
embedding of the app's own logic: the order store (`log_request`,
`update_order_status`, the admin `SELECT ... ORDER BY request_date DESC`
query), the best-effort mailer (`send_confirmation_email`), the AI
analysis client (`process_document`, including its dynamic prompt
assembly and the `json.loads` parse of the fence-stripped response), and
the flow controller (the analyze button handler and the step-4
results/paywall renderer).

External collaborators (the Gemini service, SMTP, Streamlit widgets) are
modelled as oracles: a `GenaiEnv` records the outcome of the upload/poll
phase and of the `generate_content` call, an `EmailEnv` records the
secret store contents and the outcome of the SMTP session.  Python
dynamic semantics that the code relies on (`in`, subscription, `len`,
`>`, truthiness, `dict.get`) are embedded as explicit partial operations
returning `Except String` where Python would raise.  `json.loads` is
embedded as a recursive-descent parser producing CPython-style
`JSONDecodeError` messages; JSON numbers are modelled as integers
(fractional literals are outside the model).
-/

/-- Python truthiness of an optional string argument (`None` or `""` are falsy),
as used by `log_request`'s `doc_no if doc_no else "MANUAL_SEARCH"`. -/
def pyFalsy : Option String → Bool
  | none => true
  | some s => s.isEmpty

/-- `chStarts p l` is true iff the char list `p` is an initial segment of `l`. -/
def chStarts (p l : List Char) : Bool :=
  match p, l with
  | x :: xs, y :: ys => x == y && chStarts xs ys
  | [], _ => true
  | _, [] => false

/-- `chContains need hay` is true iff `need` occurs contiguously inside `hay`
(Python's substring containment `need in hay`). -/
def chContains (need : List Char) : List Char → Bool
  | [] => need.isEmpty
  | b :: t => chStarts need (b :: t) || chContains need t

/-- String wrapper: `strStarts s p` iff `p` is a prefix of `s`. -/
def strStarts (s p : String) : Bool := chStarts p.toList s.toList

/-- String wrapper: `strContains hay need` iff `need` is a substring of `hay`. -/
def strContains (hay need : String) : Bool := chContains need.toList hay.toList

/-- Python `str.replace(pat, rep)`: replace all non-overlapping occurrences of
`pat`, scanning left to right, without rescanning the replacement.  The `fuel`
argument only drives structural recursion; any `fuel ≥ s.length` yields the
replacement semantics, and callers pass `s.length`. -/
def replaceAll (pat rep : List Char) (fuel : Nat) (s : List Char) : List Char :=
  match fuel, s with
  | _, [] => []
  | 0, s => s
  | fuel + 1, c :: rest =>
    if chStarts pat (c :: rest) && !pat.isEmpty then
      rep ++ replaceAll pat rep fuel (rest.drop (pat.length - 1))
    else
      c :: replaceAll pat rep fuel rest

/-- The whitespace class of Python's `str.strip()`. -/
def pyIsSpace (c : Char) : Bool :=
  let n := c.toNat
  n == 32 || n == 9 || n == 10 || n == 13 || n == 11 || n == 12

/-- Python `str.strip()` on a char list. -/
def pyStrip (s : List Char) : List Char :=
  ((s.dropWhile pyIsSpace).reverse.dropWhile pyIsSpace).reverse

/-- `app.py` line 208: `response.text.replace("```json", "").replace("```", "").strip()`. -/
def stripFences (s : String) : String :=
  let step1 := replaceAll "```json".toList [] s.toList.length s.toList
  String.mk (pyStrip (replaceAll "```".toList [] step1.length step1))

/-- Values produced by `json.loads`, with numbers restricted to integers. -/
inductive Json where
  | null
  | bool (b : Bool)
  | num (n : Int)
  | str (s : String)
  | arr (xs : List Json)
  | obj (kvs : List (String × Json))

/-- The Python type name of a parsed JSON value, as it appears in CPython
error messages (`dict`, `list`, `str`, `int`, `bool`, `NoneType`). -/
def pyTypeName : Json → String
  | .null => "NoneType"
  | .bool _ => "bool"
  | .num _ => "int"
  | .str _ => "str"
  | .arr _ => "list"
  | .obj _ => "dict"

/-- JSON whitespace skipped by the CPython decoder (space, tab, LF, CR),
tracking the absolute position. -/
def jsonSkipWs : List Char → Nat → (List Char × Nat)
  | [], p => ([], p)
  | c :: rest, p =>
    if c.toNat == 32 || c.toNat == 9 || c.toNat == 10 || c.toNat == 13 then jsonSkipWs rest (p + 1)
    else (c :: rest, p)

/-- Hex digit value, for `\uXXXX` string escapes, by code point: `0`–`9` are
codes 48–57, `a`–`f` are 97–102, `A`–`F` are 65–70. -/
def hexVal (c : Char) : Option Nat :=
  let n := c.toNat
  if 48 ≤ n ∧ n ≤ 57 then some (n - 48)
  else if 97 ≤ n ∧ n ≤ 102 then some (n - 87)
  else if 65 ≤ n ∧ n ≤ 70 then some (n - 55)
  else none

/-- Body of a JSON string literal, after the opening quote; returns the decoded
characters, the unconsumed input, and the position after the closing quote.
Errors carry a CPython-style message and the offending position. -/
def parseStringBody (fuel : Nat) (cs : List Char) (pos : Nat) :
    Except (String × Nat) (List Char × List Char × Nat) :=
  match fuel with
  | 0 => .error ("Unterminated string starting at", pos)
  | fuel + 1 =>
    match cs with
    | [] => .error ("Unterminated string starting at", pos)
    | '"' :: rest => .ok ([], rest, pos + 1)
    | '\\' :: rest =>
      match rest with
      | [] => .error ("Unterminated string starting at", pos)
      | e :: rest2 =>
        let esc : Option Char :=
          if e == '"' then some '"'
          else if e == '\\' then some '\\'
          else if e == '/' then some '/'
          else if e == 'b' then some '\x08'
          else if e == 'f' then some '\x0c'
          else if e == 'n' then some '\n'
          else if e == 'r' then some '\r'
          else if e == 't' then some '\t'
          else none
        match esc with
        | some c => do
          let (s, cs2, p2) ← parseStringBody fuel rest2 (pos + 2)
          pure (c :: s, cs2, p2)
        | none =>
          if e == 'u' then
            match rest2 with
            | h1 :: h2 :: h3 :: h4 :: rest3 =>
              match hexVal h1, hexVal h2, hexVal h3, hexVal h4 with
              | some a, some b, some c, some d => do
                let code := ((a * 16 + b) * 16 + c) * 16 + d
                let (s, cs2, p2) ← parseStringBody fuel rest3 (pos + 6)
                pure (Char.ofNat code :: s, cs2, p2)
              | _, _, _, _ => .error ("Invalid \\uXXXX escape", pos + 1)
            | _ => .error ("Invalid \\uXXXX escape", pos + 1)
          else .error ("Invalid \\escape", pos + 1)
    | c :: rest =>
      if c.toNat < 32 then .error ("Invalid control character at", pos)
      else do
        let (s, cs2, p2) ← parseStringBody fuel rest (pos + 1)
        pure (c :: s, cs2, p2)

/-- Consume a run of decimal digits, accumulating their value. -/
def takeDigits : List Char → Nat → Nat → (Nat × List Char × Nat)
  | c :: rest, acc, pos =>
    if c.isDigit then takeDigits rest (acc * 10 + (c.toNat - '0'.toNat)) (pos + 1)
    else (acc, c :: rest, pos)
  | [], acc, pos => (acc, [], pos)

/-- A JSON integer literal (`0 | [1-9][0-9]*`), per the CPython number grammar
restricted to integers; a lone leading `0` terminates the literal. -/
def parseDigits (cs : List Char) (pos : Nat) :
    Except (String × Nat) (Nat × List Char × Nat) :=
  match cs with
  | [] => .error ("Expecting value", pos)
  | c :: rest =>
    if c == '0' then .ok (0, rest, pos + 1)
    else if c.isDigit then
      let (n, cs2, p2) := takeDigits rest (c.toNat - '0'.toNat) (pos + 1)
      .ok (n, cs2, p2)
    else .error ("Expecting value", pos)

/-- Insert into an association list with Python `dict` semantics: a duplicate
key keeps its original position and takes the latest value. -/
def insKV (kvs : List (String × Json)) (k : String) (v : Json) : List (String × Json) :=
  match kvs with
  | [] => [(k, v)]
  | (k0, v0) :: rest => if k0 == k then (k0, v) :: rest else (k0, v0) :: insKV rest k v

/-- The decoder's pending production: a whole value, an object body after
`{`, an object member list, an array body after `[`, or an array element
list.  Defunctionalizing the mutually recursive CPython decoder this way
keeps the recursion structural in the fuel argument. -/
inductive PTask where
  | val
  | objBody
  | members (acc : List (String × Json))
  | arrBody
  | elems (acc : List Json)

/-- One JSON production, CPython-decoder style: `.val` skips whitespace and
dispatches on the first character (anything unrecognized is
`Expecting value`); `.objBody`/`.members` and `.arrBody`/`.elems` implement
the object and array grammars with their delimiter errors.  The fuel only
drives structural recursion and is sized generously by `jsonLoads`. -/
def parseRun (fuel : Nat) (task : PTask) (cs : List Char) (pos : Nat) :
    Except (String × Nat) (Json × List Char × Nat) :=
  match fuel with
  | 0 => .error ("Expecting value", pos)
  | fuel + 1 =>
    match task with
    | .val =>
      let (cs1, p1) := jsonSkipWs cs pos
      match cs1 with
      | [] => .error ("Expecting value", p1)
      | '\x7b' :: rest => parseRun fuel .objBody rest (p1 + 1)
      | '[' :: rest => parseRun fuel .arrBody rest (p1 + 1)
      | '"' :: rest =>
        match parseStringBody fuel rest (p1 + 1) with
        | .error e => .error e
        | .ok (s, cs2, p2) => .ok (Json.str (String.mk s), cs2, p2)
      | 'n' :: 'u' :: 'l' :: 'l' :: rest => .ok (Json.null, rest, p1 + 4)
      | 't' :: 'r' :: 'u' :: 'e' :: rest => .ok (Json.bool true, rest, p1 + 4)
      | 'f' :: 'a' :: 'l' :: 's' :: 'e' :: rest => .ok (Json.bool false, rest, p1 + 5)
      | '-' :: rest =>
        match parseDigits rest (p1 + 1) with
        | .ok (n, cs2, p2) => .ok (Json.num (-(n : Int)), cs2, p2)
        | .error _ => .error ("Expecting value", p1)
      | c :: rest =>
        if c.isDigit then
          match parseDigits (c :: rest) p1 with
          | .ok (n, cs2, p2) => .ok (Json.num (n : Int), cs2, p2)
          | .error e => .error e
        else .error ("Expecting value", p1)
    | .objBody =>
      let (cs1, p1) := jsonSkipWs cs pos
      match cs1 with
      | '\x7d' :: rest => .ok (Json.obj [], rest, p1 + 1)
      | _ => parseRun fuel (.members []) cs1 p1
    | .members acc =>
      let (cs1, p1) := jsonSkipWs cs pos
      match cs1 with
      | '"' :: rest =>
        match parseStringBody fuel rest (p1 + 1) with
        | .error e => .error e
        | .ok (k, cs2, p2) =>
          let (cs3, p3) := jsonSkipWs cs2 p2
          match cs3 with
          | ':' :: rest3 =>
            match parseRun fuel .val rest3 (p3 + 1) with
            | .error e => .error e
            | .ok (v, cs4, p4) =>
              let acc2 := insKV acc (String.mk k) v
              let (cs5, p5) := jsonSkipWs cs4 p4
              match cs5 with
              | ',' :: rest5 => parseRun fuel (.members acc2) rest5 (p5 + 1)
              | '\x7d' :: rest5 => .ok (Json.obj acc2, rest5, p5 + 1)
              | _ => .error ("Expecting \x27,\x27 delimiter", p5)
          | _ => .error ("Expecting \x27:\x27 delimiter", p3)
      | _ => .error ("Expecting property name enclosed in double quotes", p1)
    | .arrBody =>
      let (cs1, p1) := jsonSkipWs cs pos
      match cs1 with
      | ']' :: rest => .ok (Json.arr [], rest, p1 + 1)
      | _ => parseRun fuel (.elems []) cs1 p1
    | .elems acc =>
      match parseRun fuel .val cs pos with
      | .error e => .error e
      | .ok (v, cs2, p2) =>
        let acc2 := acc ++ [v]
        let (cs3, p3) := jsonSkipWs cs2 p2
        match cs3 with
        | ',' :: rest3 => parseRun fuel (.elems acc2) rest3 (p3 + 1)
        | ']' :: rest3 => .ok (Json.arr acc2, rest3, p3 + 1)
        | _ => .error ("Expecting \x27,\x27 delimiter", p3)

/-- Number of the line containing position `pos` (1-based), CPython style. -/
def jsonLineOf (doc : List Char) (pos : Nat) : Nat :=
  1 + ((doc.take pos).filter (fun c => c == '\n')).length

/-- Column helper: count of characters since the last newline, plus one. -/
def colCount : List Char → Nat → Nat
  | [], acc => acc
  | c :: rest, acc => colCount rest (if c == '\n' then 1 else acc + 1)

/-- Column of position `pos` (1-based), CPython style. -/
def jsonColOf (doc : List Char) (pos : Nat) : Nat :=
  colCount (doc.take pos) 1

/-- `str(e)` for a CPython `json.JSONDecodeError`:
`"<msg>: line <l> column <c> (char <pos>)"`. -/
def fmtErr (doc : List Char) (msg : String) (pos : Nat) : String :=
  msg ++ ": line " ++ toString (jsonLineOf doc pos) ++ " column " ++
    toString (jsonColOf doc pos) ++ " (char " ++ toString pos ++ ")"

/-- `json.loads`: parse one JSON document; trailing non-whitespace is
`Extra data`.  On failure the result is the exception's message string. -/
def jsonLoads (s : String) : Except String Json :=
  let doc := s.toList
  match parseRun (2 * doc.length + 8) .val doc 0 with
  | .error (m, p) => .error (fmtErr doc m p)
  | .ok (v, rest, p) =>
    let (rest2, p2) := jsonSkipWs rest p
    if rest2.isEmpty then .ok v else .error (fmtErr doc "Extra data" p2)

/-- Python `d.get(k, default)` on a parsed JSON object's key/value list. -/
def pyDictGet (kvs : List (String × Json)) (k : String) (dflt : Json) : Json :=
  (List.lookup k kvs).getD dflt

/-- Python `needle in j` for a string needle: key membership for dicts,
substring for strings, element equality for lists; `TypeError` otherwise. -/
def pyIn (needle : String) : Json → Except String Bool
  | .obj kvs => .ok (kvs.any (fun kv => kv.fst == needle))
  | .str s => .ok (strContains s needle)
  | .arr xs =>
    .ok (xs.any (fun j => match j with | .str t => t == needle | _ => false))
  | j => .error ("TypeError: argument of type \x27" ++ pyTypeName j ++ "\x27 is not iterable")

/-- Python `j[k]` for a string key `k`. -/
def pySubscript (j : Json) (k : String) : Except String Json :=
  match j with
  | .obj kvs =>
    match List.lookup k kvs with
    | some v => .ok v
    | none => .error ("KeyError: \x27" ++ k ++ "\x27")
  | .str _ => .error "TypeError: string indices must be integers"
  | .arr _ => .error "TypeError: list indices must be integers or slices, not str"
  | j2 => .error ("TypeError: \x27" ++ pyTypeName j2 ++ "\x27 object is not subscriptable")

/-- Python `len(j)`. -/
def pyLen : Json → Except String Int
  | .obj kvs => .ok (kvs.length : Int)
  | .arr xs => .ok (xs.length : Int)
  | .str s => .ok (s.length : Int)
  | j => .error ("TypeError: object of type \x27" ++ pyTypeName j ++ "\x27 has no len()")

/-- Python `j > 0` (`bool` is an `int` subtype, so `True > 0` is `True`). -/
def pyGtZero : Json → Except String Bool
  | .num n => .ok (decide (0 < n))
  | .bool b => .ok b
  | j =>
    .error ("TypeError: \x27>\x27 not supported between instances of \x27" ++
      pyTypeName j ++ "\x27 and \x27int\x27")

/-- Python truthiness of a parsed JSON value. -/
def pyTruthy : Json → Bool
  | .null => false
  | .bool b => b
  | .num n => decide (n ≠ 0)
  | .str s => !s.isEmpty
  | .arr xs => !xs.isEmpty
  | .obj kvs => !kvs.isEmpty

/-- Python `for x in j`: the sequence of iterates (dict iterates its keys,
a string its one-character substrings); `TypeError` for non-iterables. -/
def pyIterate : Json → Except String (List Json)
  | .arr xs => .ok xs
  | .str s => .ok (s.toList.map (fun c => Json.str (String.mk [c])))
  | .obj kvs => .ok (kvs.map (fun kv => Json.str kv.fst))
  | j => .error ("TypeError: \x27" ++ pyTypeName j ++ "\x27 object is not iterable")

/-- Outcome oracle for the external Gemini collaborator in one
`process_document` call: the upload-and-poll phase either completes or raises
with a message, and `generate_content` either raises or yields `response.text`. -/
structure GenaiEnv where
  upload : Except String Unit
  generate : Except String String

/-- `app.py` lines 169–185: the fixed JSON-schema template interpolated into
every prompt (braces and indentation exactly as in the source literal). -/
def base_structure : String :=
  "\n    \x7b\n      \"property_summary\": \"Short location description\",\n      \"current_owner\": \"Name\",\n      \"risk_score\": \"Low/Medium/High\",\n      \"analysis_summary\": \"2 sentences summarizing the overall safety of this deal.\",\n      \"missing_docs_list\": [\n        \x7b\n            \"year\": \"YYYY\", \n            \"doc_type\": \"Sale Deed/Will/Gift\", \n            \"doc_no\": \"str\", \n            \"reason\": \"Why is it missing?\",\n            \"risk_explained\": \"Legal implication of missing this file.\"\n        \x7d\n      ]\n    \x7d\n    "

/-- The Negotiation-stage focus clause (`app.py` line 188). -/
def focusNegotiation : String :=
  "Focus on identifying VAGUE CLAUSES, undefined property schedules, or seller details that look suspicious. This is a preliminary draft check."

/-- The Token Payment-stage focus clause (`app.py` line 190). -/
def focusTokenPayment : String :=
  "Focus on THE CHAIN OF TITLE. Identify every single previous deed mentioned in the Recitals history that is NOT present in the file. These are critical gaps."

/-- The Loan Application-stage focus clause (`app.py` line 192, the `else` arm). -/
def focusLoanApplication : String :=
  "Focus on BANKABILITY. stringent check. If the chain is not 100% complete (30 years), mark it as High Risk. Banks will reject incomplete chains."

/-- `app.py` lines 187–192: stage-to-focus dispatch; any stage other than
`"Negotiation"` and `"Token Payment"` falls through to the Loan Application clause. -/
def focusFor (stage : String) : String :=
  if stage == "Negotiation" then focusNegotiation
  else if stage == "Token Payment" then focusTokenPayment
  else focusLoanApplication

/-- `app.py` lines 194–204: the instruction prompt f-string, with `stage`,
the focus clause, and `base_structure` interpolated. -/
def promptFor (stage : String) : String :=
  "\n    Analyze this Property Document for a user in the \x27" ++ stage ++
  "\x27 stage.\n    " ++ focusFor stage ++
  "\n    \n    Return strictly valid JSON. Do not use Markdown.\n    Structure: " ++
  base_structure ++
  "\n    \n    Rules: \n    1. If a document is mentioned in \x27Recitals\x27 (History) but NOT uploaded, it is MISSING.\n    2. If doc_no is unknown, use \"N/A\".\n    "

/-- The tagged error dictionary `{"error": m}` that both `except` branches of
`process_document` return. -/
def errObj (m : String) : Json :=
  Json.obj [("error", Json.str m)]

/-- `app.py` lines 155–211, `process_document(file_path, key, stage)`: upload
and poll (first `try`, returning `{"error": "Upload Failed: ..."}` on an
exception), assemble the stage prompt, then `generate_content`, fence-strip,
and `json.loads` (second `try`, returning `{"error": "AI Failed: ..."}` on any
exception, with `str(e)` interpolated); on success the parsed JSON value is
returned as-is.  The file path and API key live inside the `GenaiEnv` oracle. -/
def process_document (env : GenaiEnv) (stage : String) : Json :=
  let _prompt := promptFor stage
  match env.upload with
  | .error e => errObj ("Upload Failed: " ++ e)
  | .ok _ =>
    match env.generate with
    | .error e => errObj ("AI Failed: " ++ e)
    | .ok text =>
      match jsonLoads (stripFences text) with
      | .ok v => v
      | .error m => errObj ("AI Failed: " ++ m)

/-- The per-session transient state (`st.session_state`): the stored analysis
result and the paywall flag, both initialized to `None` / `False`. -/
structure Session where
  analysis_result : Option Json
  is_paid : Bool

/-- How one click of the analyze button ends: inline validation error (no file
or key), `st.error` display of a tagged error value, result stored, or an
uncaught Python exception propagating out of the handler. -/
inductive AnalyzeExit where
  | validationError
  | errorShown (msg : Json)
  | stored
  | raised (msg : String)

/-- Result of the analyze-button handler: its exit, the session it leaves
behind, and whether no temporary file remains afterwards. -/
structure AnalyzeOutcome where
  exit : AnalyzeExit
  session : Session
  tempRemoved : Bool

/-- `app.py` lines 261–274, the analyze button handler: validate inputs, write
the upload to a temporary file, call `process_document`, test `"error" in
result` (a Python dynamic operation that raises on non-container results),
either display `result["error"]` or store the result in the session, and only
then `os.remove` the temporary file — there is no `finally`, so an exception
in the result inspection skips the removal. -/
def analyzeClicked (hasFile hasKey : Bool) (env : GenaiEnv) (stage : String)
    (s : Session) : AnalyzeOutcome :=
  if !hasFile || !hasKey then ⟨.validationError, s, true⟩
  else
    let result := process_document env stage
    match pyIn "error" result with
    | .error m => ⟨.raised m, s, false⟩
    | .ok true =>
      match pySubscript result "error" with
      | .error m => ⟨.raised m, s, false⟩
      | .ok msg => ⟨.errorShown msg, s, true⟩
    | .ok false => ⟨.stored, { s with analysis_result := some result }, true⟩

/-- The fields the unlocked view reads from one element of
`missing_docs_list`, each via `doc.get` with the code's default. -/
structure DocView where
  doc_no : Json
  doc_type : Json
  year : Json
  risk_explained : Json
  reason : Json

/-- `app.py` lines 300–307: field extraction from one missing-document dict
(`doc_no` → `"N/A"`, `doc_type` → `"Unknown Doc"`, `year` → `"????"`,
`risk_explained` → `"Critical for ownership."`, `reason` → `None`). -/
def docViewObj (m : List (String × Json)) : DocView :=
  ⟨pyDictGet m "doc_no" (Json.str "N/A"),
   pyDictGet m "doc_type" (Json.str "Unknown Doc"),
   pyDictGet m "year" (Json.str "????"),
   pyDictGet m "risk_explained" (Json.str "Critical for ownership."),
   pyDictGet m "reason" Json.null⟩

/-- `doc.get(...)` on one iterated element: only dicts have `.get`; anything
else raises `AttributeError`. -/
def docView : Json → Except String DocView
  | .obj m => .ok (docViewObj m)
  | j =>
    .error ("AttributeError: \x27" ++ pyTypeName j ++
      "\x27 object has no attribute \x27get\x27")

/-- The summary block of the step-4 report (`app.py` lines 283–287):
`analysis_summary` → `"Analysis Complete."`, `property_summary` → `"N/A"`,
`risk_score` → `"Unknown"`. -/
structure SummaryView where
  analysis_summary : Json
  property_summary : Json
  risk_score : Json

/-- Extraction of the summary block from the stored result object. -/
def summaryOf (kvs : List (String × Json)) : SummaryView :=
  ⟨pyDictGet kvs "analysis_summary" (Json.str "Analysis Complete."),
   pyDictGet kvs "property_summary" (Json.str "N/A"),
   pyDictGet kvs "risk_score" (Json.str "Unknown")⟩

/-- `app.py` line 290:
`count = res.get('missing_docs_count', len(res.get('missing_docs_list', [])))`.
Python evaluates the default argument eagerly, so `len` runs (and can raise)
even when the `missing_docs_count` key is present. -/
def computeCount (kvs : List (String × Json)) : Except String Json := do
  let inner := pyDictGet kvs "missing_docs_list" (Json.arr [])
  let n ← pyLen inner
  pure (pyDictGet kvs "missing_docs_count" (Json.num n))

/-- The gaps section of the step-4 report: the unlocked issue list, the locked
paywall teaser with its displayed count, or the clean success banner. -/
inductive GapsView where
  | unlocked (docs : List DocView)
  | locked (count : Json)
  | clean

/-- What step 4 renders: nothing (falsy/absent result), an uncaught Python
exception, or the report (summary block plus gaps section). -/
inductive RenderedReport where
  | nothing
  | raised (msg : String)
  | report (summary : SummaryView) (gaps : GapsView)

/-- `app.py` lines 276–336, the results/paywall renderer: runs only when the
stored result is truthy; reads the summary fields via `res.get` (raising
`AttributeError` on a non-dict result); computes `count` (line 290) before
branching on `is_paid`; when paid, iterates `missing_docs_list` extracting
each document's fields; otherwise shows the locked teaser iff `count > 0`,
else the clean banner. -/
def renderStep4 (s : Session) : RenderedReport :=
  match s.analysis_result with
  | none => .nothing
  | some res =>
    if !pyTruthy res then .nothing
    else
      match res with
      | .obj kvs =>
        let summary := summaryOf kvs
        match computeCount kvs with
        | .error m => .raised m
        | .ok count =>
          if s.is_paid then
            match pyIterate (pyDictGet kvs "missing_docs_list" (Json.arr [])) with
            | .error m => .raised m
            | .ok elems =>
              match elems.mapM docView with
              | .error m => .raised m
              | .ok docs => .report summary (.unlocked docs)
          else
            match pyGtZero count with
            | .error m => .raised m
            | .ok b => .report summary (if b then .locked count else .clean)
      | j =>
        .raised ("AttributeError: \x27" ++ pyTypeName j ++
          "\x27 object has no attribute \x27get\x27")

/-- One row of the `orders` table (`app.py` lines 40–51); `request_date` is an
abstract timestamp, totally ordered like the stored `datetime`. -/
structure Order where
  id : Nat
  doc_no : String
  doc_name : String
  customer_name : String
  contact_info : String
  request_date : Nat
  status : String
  stage_context : String

/-- The `orders` table: its rows plus the next `AUTOINCREMENT` id. -/
structure OrdersDb where
  rows : List Order
  nextId : Nat

/-- `app.py` lines 57–66, `log_request`: normalize a falsy `doc_no` to the
`"MANUAL_SEARCH"` sentinel and insert a `'Pending'` row stamped with the
current time (`datetime.now()` is passed in as `now`). -/
def log_request (db : OrdersDb) (doc_no : Option String)
    (doc_name name contact stage : String) (now : Nat) : OrdersDb :=
  let safe_doc_no := if pyFalsy doc_no then "MANUAL_SEARCH" else doc_no.getD ""
  { rows := db.rows ++
      [⟨db.nextId, safe_doc_no, doc_name, name, contact, now, "Pending", stage⟩],
    nextId := db.nextId + 1 }

/-- `app.py` lines 68–73, `update_order_status`:
`UPDATE orders SET status = ? WHERE id = ?` — an unconditional overwrite of
the status of every row with the given id, all other columns untouched. -/
def update_order_status (db : OrdersDb) (order_id : Nat) (new_status : String) : OrdersDb :=
  { db with rows := db.rows.map (fun r => if r.id = order_id then { r with status := new_status } else r) }

/-- Descending order on `request_date`, the sort key of the admin query. -/
def byDateDesc (a b : Order) : Prop := b.request_date ≤ a.request_date

instance : DecidableRel byDateDesc :=
  fun a b => inferInstanceAs (Decidable (b.request_date ≤ a.request_date))

instance : IsTotal Order byDateDesc :=
  ⟨fun a b => Or.symm (Nat.le_total a.request_date b.request_date)⟩

instance : IsTrans Order byDateDesc :=
  ⟨fun _ _ _ hab hbc => Nat.le_trans hbc hab⟩

/-- `app.py` line 136, the admin dashboard query:
`SELECT * FROM orders ORDER BY request_date DESC`. -/
def listOrders (db : OrdersDb) : List Order :=
  List.insertionSort byDateDesc db.rows

/-- Oracle for `send_confirmation_email`'s collaborators: the `st.secrets`
store (a string-keyed mapping that raises `KeyError` on a missing subscript)
and the outcome of the whole SMTP session inside the `try` block. -/
structure EmailEnv where
  secrets : List (String × String)
  smtpSession : Except String Unit

/-- `app.py` lines 75–98, `send_confirmation_email`: if `"gmail_user"` is not
in `st.secrets`, return `False`; otherwise read both credentials — the
`st.secrets["gmail_pass"]` subscript happens outside the `try`, so a missing
password raises `KeyError` to the caller — then run the SMTP session inside
`try`, returning `True` on success and `False` on any exception. -/
def send_confirmation_email (env : EmailEnv)
    (customer_email customer_name doc_name : String) : Except String Bool :=
  if (env.secrets.lookup "gmail_user").isSome then
    match env.secrets.lookup "gmail_pass" with
    | none => .error "KeyError: \x27gmail_pass\x27"
    | some _ =>
      match env.smtpSession with
      | .ok _ => .ok true
      | .error _ => .ok false
  else .ok false

/-- Environment where the AI responds with text that is not JSON at all. -/
def envMalformed : GenaiEnv := ⟨.ok (), .ok "not json"⟩

/-- Environment where the AI responds with the valid JSON document `3`
(a non-dict value). -/
def envNonDict : GenaiEnv := ⟨.ok (), .ok "3"⟩

/-- Environment where the AI responds with a JSON object whose
`missing_docs_list` contains a bare number instead of an object. -/
def envNonConforming : GenaiEnv :=
  ⟨.ok (), .ok "\x7b\"missing_docs_list\": [3]\x7d"⟩

/-- The parsed value of `envNonConforming`'s response. -/
def resNonConforming : Json :=
  Json.obj [("missing_docs_list", Json.arr [Json.num 3])]

/-- Environment where the AI responds with a well-shaped object whose one
missing document carries only a `year` field. -/
def envConforming : GenaiEnv :=
  ⟨.ok (), .ok "\x7b\"missing_docs_list\": [\x7b\"year\": \"1995\"\x7d]\x7d"⟩

/-- The parsed key/value list of `envConforming`'s response. -/
def kvsConforming : List (String × Json) :=
  [("missing_docs_list", Json.arr [Json.obj [("year", Json.str "1995")]])]

/-- Environment where the upload/poll phase raises. -/
def envUploadFail : GenaiEnv := ⟨.error "403 auth", .ok ""⟩

/-- Analysis result with a positive `missing_docs_count` but an empty
`missing_docs_list`. -/
def resCountNoList : Json :=
  Json.obj [("missing_docs_count", Json.num 1), ("missing_docs_list", Json.arr [])]

/-- An example order row and one-row table for witnesses. -/
def orderEx : Order := ⟨1, "D-1", "Sale Deed 1990", "Asha", "99 | a@b.c", 5, "Pending", "Negotiation"⟩

/-- A one-row example table whose next id is 2. -/
def dbEx : OrdersDb := ⟨[orderEx], 2⟩

/-- A secret store holding both mail credentials, with a succeeding SMTP session. -/
def emailEnvOk : EmailEnv := ⟨[("gmail_user", "u@gmail.com"), ("gmail_pass", "pw")], .ok ()⟩

/-- Membership in the admin listing is membership in the table rows. -/
theorem mem_listOrders {db : OrdersDb} {r : Order} :
    r ∈ listOrders db ↔ r ∈ db.rows :=
  (List.perm_insertionSort byDateDesc db.rows).mem_iff

/-- The admin listing is sorted by `request_date` descending. -/
theorem sorted_listOrders (db : OrdersDb) :
    (listOrders db).Sorted byDateDesc :=
  List.sorted_insertionSort byDateDesc db.rows

/-- A list starts with itself followed by anything. -/
theorem chStarts_append (p r : List Char) : chStarts p (p ++ r) = true := by
  induction p with
  | nil => cases r <;> rfl
  | cons a as ih => simp [chStarts, ih]

/-- A string starts with its own prefix of an append. -/
theorem strStarts_append (p r : String) : strStarts (p ++ r) p = true := by
  have h : (p ++ r).toList = p.toList ++ r.toList := by
    cases p
    cases r
    rfl
  simp only [strStarts, h]
  exact chStarts_append _ _

set_option maxRecDepth 100000 in
/-- C7: for each of the three stages (Negotiation, Token Payment, Loan
Application), the instruction prompt assembled by `process_document` contains
that stage's designated focus clause and contains no other stage's focus clause. -/
theorem c7_prompt_focus_exclusive :
    (strContains (promptFor "Negotiation") focusNegotiation = true ∧
      strContains (promptFor "Negotiation") focusTokenPayment = false ∧
      strContains (promptFor "Negotiation") focusLoanApplication = false) ∧
    (strContains (promptFor "Token Payment") focusTokenPayment = true ∧
      strContains (promptFor "Token Payment") focusNegotiation = false ∧
      strContains (promptFor "Token Payment") focusLoanApplication = false) ∧
    (strContains (promptFor "Loan Application") focusLoanApplication = true ∧
      strContains (promptFor "Loan Application") focusNegotiation = false ∧
      strContains (promptFor "Loan Application") focusTokenPayment = false) := by
  exact ⟨⟨rfl, rfl, rfl⟩, ⟨rfl, rfl, rfl⟩, ⟨rfl, rfl, rfl⟩⟩

/-- C2: `log_request` followed by the admin listing yields a row whose fields
exactly equal the inputs — `doc_no` normalized to the `"MANUAL_SEARCH"`
sentinel exactly when the input was empty/absent, status `'Pending'`, the
insertion timestamp as `request_date` — and the listing is ordered by
`request_date` descending. -/
theorem c2_create_then_list (db : OrdersDb) (doc_no : Option String)
    (doc_name name contact stage : String) (now : Nat) :
    (∃ r ∈ listOrders (log_request db doc_no doc_name name contact stage now),
      r.doc_no = (if pyFalsy doc_no then "MANUAL_SEARCH" else doc_no.getD "") ∧
      r.doc_name = doc_name ∧ r.customer_name = name ∧ r.contact_info = contact ∧
      r.request_date = now ∧ r.status = "Pending" ∧ r.stage_context = stage) ∧
    (listOrders (log_request db doc_no doc_name name contact stage now)).Sorted byDateDesc := by
  constructor
  · refine ⟨⟨db.nextId, if pyFalsy doc_no then "MANUAL_SEARCH" else doc_no.getD "",
      doc_name, name, contact, now, "Pending", stage⟩, ?_, rfl, rfl, rfl, rfl, rfl, rfl, rfl⟩
    rw [mem_listOrders]
    exact List.mem_append_right _ (List.mem_singleton_self _)
  · exact sorted_listOrders _

/-- C9: for an id present in the table, `update_order_status(id, "Completed")`
followed by the admin listing shows status `"Completed"` for that id with all
other fields of that row unchanged, and all other orders are unchanged: every
listed row with the target id is an original row with only its status
replaced, every listed row with another id was already listed, every
originally listed row with another id is still listed unchanged, and the
original target row is still listed with only its status replaced. -/
theorem c9_update_status (db : OrdersDb) (oid : Nat)
    (hin : oid ∈ db.rows.map Order.id) :
    (∀ r ∈ listOrders (update_order_status db oid "Completed"), r.id = oid →
      ∃ r0 ∈ listOrders db, r0.id = oid ∧ r = { r0 with status := "Completed" }) ∧
    (∀ r ∈ listOrders (update_order_status db oid "Completed"), r.id ≠ oid →
      r ∈ listOrders db) ∧
    (∀ r0 ∈ listOrders db, r0.id ≠ oid →
      r0 ∈ listOrders (update_order_status db oid "Completed")) ∧
    (∀ r0 ∈ listOrders db, r0.id = oid →
      { r0 with status := "Completed" } ∈ listOrders (update_order_status db oid "Completed")) ∧
    (∃ r ∈ listOrders (update_order_status db oid "Completed"),
      r.id = oid ∧ r.status = "Completed") := by
  refine ⟨?_, ?_, ?_, ?_, ?_⟩
  · intro r hr hid
    rw [mem_listOrders] at hr
    simp only [update_order_status, List.mem_map] at hr
    obtain ⟨r0, hr0, hf⟩ := hr
    by_cases h : r0.id = oid
    · rw [if_pos h] at hf
      exact ⟨r0, mem_listOrders.mpr hr0, h, hf.symm⟩
    · rw [if_neg h] at hf
      exact absurd (hf ▸ hid) h
  · intro r hr hid
    rw [mem_listOrders] at hr
    simp only [update_order_status, List.mem_map] at hr
    obtain ⟨r0, hr0, hf⟩ := hr
    by_cases h : r0.id = oid
    · rw [if_pos h] at hf
      have : r.id = oid := by rw [← hf]; exact h
      exact absurd this hid
    · rw [if_neg h] at hf
      exact mem_listOrders.mpr (hf ▸ hr0)
  · intro r0 hr0 hid0
    rw [mem_listOrders] at hr0
    rw [mem_listOrders]
    simp only [update_order_status, List.mem_map]
    exact ⟨r0, hr0, by rw [if_neg hid0]⟩
  · intro r0 hr0 hid0
    rw [mem_listOrders] at hr0
    rw [mem_listOrders]
    simp only [update_order_status, List.mem_map]
    exact ⟨r0, hr0, by rw [if_pos hid0]⟩
  · rw [List.mem_map] at hin
    obtain ⟨r0, hr0, hid0⟩ := hin
    refine ⟨{ r0 with status := "Completed" }, ?_, hid0, rfl⟩
    rw [mem_listOrders]
    simp only [update_order_status, List.mem_map]
    exact ⟨r0, hr0, by rw [if_pos hid0]⟩

/-- C9 witness: a concrete one-row table whose row id 1 is updated. -/
theorem c9_update_status_witness :
    (1 ∈ dbEx.rows.map Order.id) ∧
    ((∀ r ∈ listOrders (update_order_status dbEx 1 "Completed"), r.id = 1 →
      ∃ r0 ∈ listOrders dbEx, r0.id = 1 ∧ r = { r0 with status := "Completed" }) ∧
    (∀ r ∈ listOrders (update_order_status dbEx 1 "Completed"), r.id ≠ 1 →
      r ∈ listOrders dbEx) ∧
    (∀ r0 ∈ listOrders dbEx, r0.id ≠ 1 →
      r0 ∈ listOrders (update_order_status dbEx 1 "Completed")) ∧
    (∀ r0 ∈ listOrders dbEx, r0.id = 1 →
      { r0 with status := "Completed" } ∈ listOrders (update_order_status dbEx 1 "Completed")) ∧
    (∃ r ∈ listOrders (update_order_status dbEx 1 "Completed"),
      r.id = 1 ∧ r.status = "Completed")) :=
  ⟨by decide, c9_update_status dbEx 1 (by decide)⟩

/-- C4 counterexample: a secret store holding `gmail_user` but no `gmail_pass`
makes `send_confirmation_email` raise `KeyError` to its caller instead of
returning a boolean, because the password subscript happens outside the `try`. -/
theorem c4_counterexample :
    send_confirmation_email ⟨[("gmail_user", "u@gmail.com")], .ok ()⟩ "a@b.c" "Asha" "Deed" =
      .error "KeyError: \x27gmail_pass\x27" := rfl

/-- C4 (corrected): whenever the secret store is credential-consistent
(`gmail_pass` present if `gmail_user` is), `send_confirmation_email` never
raises: it returns a boolean that is `true` exactly when the sender credential
is present and the SMTP session succeeded, and `false` on any failure,
including missing credentials. -/
theorem c4_no_raise (env : EmailEnv) (e n d : String)
    (hcons : (env.secrets.lookup "gmail_user").isSome →
      (env.secrets.lookup "gmail_pass").isSome) :
    ∃ b : Bool, send_confirmation_email env e n d = .ok b ∧
      (b = true ↔ (env.secrets.lookup "gmail_user").isSome ∧ env.smtpSession = .ok ()) := by
  unfold send_confirmation_email
  by_cases hu : (env.secrets.lookup "gmail_user").isSome
  · have hp := hcons hu
    obtain ⟨pw, hpw⟩ := Option.isSome_iff_exists.mp hp
    rw [if_pos hu, hpw]
    cases hsm : env.smtpSession with
    | ok u =>
      cases u
      exact ⟨true, rfl, by simp [hu, hsm]⟩
    | error m => exact ⟨false, rfl, by simp [hsm]⟩
  · rw [if_neg hu]
    exact ⟨false, rfl, by simp [hu]⟩

/-- C4 witness: both credentials present and a succeeding SMTP session. -/
theorem c4_no_raise_witness :
    ∃ b : Bool, send_confirmation_email emailEnvOk "a@b.c" "Asha" "Deed" = .ok b ∧
      (b = true ↔ (emailEnvOk.secrets.lookup "gmail_user").isSome ∧
        emailEnvOk.smtpSession = .ok ()) :=
  c4_no_raise emailEnvOk "a@b.c" "Asha" "Deed" (fun _ => by decide)

set_option maxRecDepth 100000 in
/-- C3 counterexample: the malformed (non-JSON) response "not json" is tagged
`"AI Failed: ..."` with the JSON parser's position message — there is no
`MalformedResponse` kind and the tagged value does not carry the raw
response text. -/
theorem c3_counterexample :
    process_document envMalformed "Negotiation" =
      errObj "AI Failed: Expecting value: line 1 column 1 (char 0)" ∧
    strContains "AI Failed: Expecting value: line 1 column 1 (char 0)" "not json" = false :=
  ⟨rfl, rfl⟩

/-- C3 (corrected): every `process_document` call either returns the parsed
JSON of the fence-stripped response, or returns a tagged error dictionary
whose tag is one of exactly two kinds — `"Upload Failed: ..."` for the
upload/poll `try` and `"AI Failed: ..."` for the generation/parse `try` (the
exception message, not the raw response text); no error branch is silently
swallowed. -/
theorem c3_two_way_classification (env : GenaiEnv) (stage : String) :
    (∃ t v, env.upload = .ok () ∧ env.generate = .ok t ∧
      jsonLoads (stripFences t) = .ok v ∧ process_document env stage = v) ∨
    (∃ m, process_document env stage = errObj m ∧
      (strStarts m "Upload Failed: " = true ∨ strStarts m "AI Failed: " = true)) := by
  cases hu : env.upload with
  | error e =>
    right
    exact ⟨"Upload Failed: " ++ e, by simp [process_document, hu],
      Or.inl (strStarts_append _ _)⟩
  | ok u =>
    cases u
    cases hg : env.generate with
    | error e =>
      right
      exact ⟨"AI Failed: " ++ e, by simp [process_document, hu, hg],
        Or.inr (strStarts_append _ _)⟩
    | ok t =>
      cases hp : jsonLoads (stripFences t) with
      | ok v =>
        left
        exact ⟨t, v, rfl, rfl, hp, by simp [process_document, hu, hg, hp]⟩
      | error m =>
        right
        exact ⟨"AI Failed: " ++ m, by simp [process_document, hu, hg, hp],
          Or.inr (strStarts_append _ _)⟩

/-- C1 counterexample: a result whose missing-documents collection
(`missing_docs_list`) is empty but whose `missing_docs_count` is 1 drives the
unpaid flow into the Locked paywall view, not the clean report. -/
theorem c1_counterexample :
    pyDictGet [("missing_docs_count", Json.num 1), ("missing_docs_list", Json.arr [])]
      "missing_docs_list" (Json.arr []) = Json.arr [] ∧
    renderStep4 ⟨some resCountNoList, false⟩ =
      .report
        (summaryOf [("missing_docs_count", Json.num 1), ("missing_docs_list", Json.arr [])])
        (.locked (Json.num 1)) :=
  ⟨rfl, rfl⟩

/-- C1 (corrected): with the effective missing-document count — the
`missing_docs_count` entry when present, else the length of
`missing_docs_list` — equal to a number `n`, the unpaid flow renders the
Locked paywall exactly when `0 < n` and otherwise the clean unpaid report;
a zero effective count is never paywalled. -/
theorem c1_lock_decision (kvs : List (String × Json)) (n : Int)
    (htruthy : pyTruthy (Json.obj kvs) = true)
    (hcount : computeCount kvs = .ok (Json.num n)) :
    renderStep4 ⟨some (Json.obj kvs), false⟩ =
      .report (summaryOf kvs)
        (if 0 < n then GapsView.locked (Json.num n) else GapsView.clean) := by
  by_cases h : 0 < n <;>
    simp [renderStep4, htruthy, hcount, pyGtZero, h]

/-- C1 witness: a concrete result with count 2. -/
theorem c1_lock_decision_witness :
    pyTruthy (Json.obj [("missing_docs_count", Json.num 2)]) = true ∧
    renderStep4 ⟨some (Json.obj [("missing_docs_count", Json.num 2)]), false⟩ =
      .report (summaryOf [("missing_docs_count", Json.num 2)])
        (if 0 < (2 : Int) then GapsView.locked (Json.num 2) else GapsView.clean) :=
  ⟨rfl, c1_lock_decision [("missing_docs_count", Json.num 2)] 2 rfl rfl⟩

/-- C10: the lock decision and the teaser count come from `missing_docs_count`
when that key is present, falling back to the length of `missing_docs_list`
only otherwise: a zero count key with a non-empty list renders the clean
report, while a positive count key `k` with an empty list renders a Locked
teaser showing `k` even though unlocking reveals an empty issue list. -/
theorem c10_count_key_overrides (kvs1 kvs2 : List (String × Json)) (l : List Json) (k : Int)
    (h1c : List.lookup "missing_docs_count" kvs1 = some (Json.num 0))
    (h1l : pyDictGet kvs1 "missing_docs_list" (Json.arr []) = Json.arr l)
    (hlne : l ≠ [])
    (h2c : List.lookup "missing_docs_count" kvs2 = some (Json.num k))
    (hk : 0 < k)
    (h2l : List.lookup "missing_docs_list" kvs2 = some (Json.arr [])) :
    renderStep4 ⟨some (Json.obj kvs1), false⟩ = .report (summaryOf kvs1) GapsView.clean ∧
    renderStep4 ⟨some (Json.obj kvs2), false⟩ =
      .report (summaryOf kvs2) (GapsView.locked (Json.num k)) ∧
    renderStep4 ⟨some (Json.obj kvs2), true⟩ =
      .report (summaryOf kvs2) (GapsView.unlocked []) := by
  have h1ne : kvs1 ≠ [] := by
    intro h
    rw [h] at h1c
    simp [List.lookup] at h1c
  have h2ne : kvs2 ≠ [] := by
    intro h
    rw [h] at h2c
    simp [List.lookup] at h2c
  have ht1 : pyTruthy (Json.obj kvs1) = true := by
    simp [pyTruthy, List.isEmpty_eq_true, h1ne]
  have ht2 : pyTruthy (Json.obj kvs2) = true := by
    simp [pyTruthy, List.isEmpty_eq_true, h2ne]
  have h1l' : (List.lookup "missing_docs_list" kvs1).getD (Json.arr []) = Json.arr l := h1l
  have h2l' : (List.lookup "missing_docs_list" kvs2).getD (Json.arr []) = Json.arr [] := by
    rw [h2l]
    rfl
  have hc1 : computeCount kvs1 = .ok (Json.num 0) := by
    simp [computeCount, pyDictGet, h1l', pyLen, h1c, Except.map]
  have hc2 : computeCount kvs2 = .ok (Json.num k) := by
    simp [computeCount, pyDictGet, h2l', pyLen, h2c, Except.map]
  refine ⟨?_, ?_, ?_⟩
  · simp [renderStep4, ht1, hc1, pyGtZero]
  · simp [renderStep4, ht2, hc2, pyGtZero, hk]
  · simp only [renderStep4, ht2, hc2, pyDictGet, h2l', pyIterate, List.mapM,
      List.mapM.loop, Bool.not_true, Bool.false_eq_true, if_false]
    rfl

/-- C10 witness: concrete results for both halves. -/
theorem c10_count_key_overrides_witness :
    renderStep4 ⟨some (Json.obj [("missing_docs_count", Json.num 0),
        ("missing_docs_list", Json.arr [Json.obj []])]), false⟩ =
      .report (summaryOf [("missing_docs_count", Json.num 0),
        ("missing_docs_list", Json.arr [Json.obj []])]) GapsView.clean ∧
    renderStep4 ⟨some (Json.obj [("missing_docs_count", Json.num 3),
        ("missing_docs_list", Json.arr [])]), false⟩ =
      .report (summaryOf [("missing_docs_count", Json.num 3),
        ("missing_docs_list", Json.arr [])]) (GapsView.locked (Json.num 3)) ∧
    renderStep4 ⟨some (Json.obj [("missing_docs_count", Json.num 3),
        ("missing_docs_list", Json.arr [])]), true⟩ =
      .report (summaryOf [("missing_docs_count", Json.num 3),
        ("missing_docs_list", Json.arr [])]) (GapsView.unlocked []) :=
  c10_count_key_overrides
    [("missing_docs_count", Json.num 0), ("missing_docs_list", Json.arr [Json.obj []])]
    [("missing_docs_count", Json.num 3), ("missing_docs_list", Json.arr [])]
    [Json.obj []] 3 rfl rfl (List.cons_ne_nil _ _) rfl (by decide) rfl

set_option maxRecDepth 400000 in
/-- C5 counterexample: the accepted JSON `{"missing_docs_list": [3]}` is
returned and stored as-is, but its list element is not an object, so no
default substitution is possible: the unlocked rendering raises
`AttributeError` instead of yielding a value conforming to the
AnalysisResult shape. -/
theorem c5_counterexample :
    process_document envNonConforming "Token Payment" = resNonConforming ∧
    (analyzeClicked true true envNonConforming "Token Payment" ⟨none, false⟩).session.analysis_result
      = some resNonConforming ∧
    renderStep4 ⟨some resNonConforming, true⟩ =
      .raised "AttributeError: \x27int\x27 object has no attribute \x27get\x27" :=
  ⟨rfl, rfl, rfl⟩

/-- C5 (corrected): for every response accepted as valid JSON that parses to a
non-empty object whose `missing_docs_list` (or its `[]` default) is an array
of objects, `process_document` returns the parsed object and the app's
consuming view conforms to the AnalysisResult shape, substituting the code's
default for every missing optional field — in particular `risk_score`
defaults to `"Unknown"` and a document's `doc_no` defaults to `"N/A"`. -/
theorem c5_defaults (env : GenaiEnv) (stage t : String) (kvs : List (String × Json))
    (ds : List Json) (dvs : List DocView)
    (hup : env.upload = .ok ())
    (hgen : env.generate = .ok t)
    (hparse : jsonLoads (stripFences t) = .ok (Json.obj kvs))
    (hne : kvs ≠ [])
    (hlist : pyDictGet kvs "missing_docs_list" (Json.arr []) = Json.arr ds)
    (hdocs : ds.mapM docView = .ok dvs) :
    process_document env stage = Json.obj kvs ∧
    renderStep4 ⟨some (Json.obj kvs), true⟩ =
      .report (summaryOf kvs) (GapsView.unlocked dvs) ∧
    (List.lookup "risk_score" kvs = none → (summaryOf kvs).risk_score = Json.str "Unknown") ∧
    (∀ m, List.lookup "doc_no" m = none → (docViewObj m).doc_no = Json.str "N/A") := by
  have hlist' : (List.lookup "missing_docs_list" kvs).getD (Json.arr []) = Json.arr ds := hlist
  have ht : pyTruthy (Json.obj kvs) = true := by
    simp [pyTruthy, List.isEmpty_eq_true, hne]
  have hc : computeCount kvs = .ok (pyDictGet kvs "missing_docs_count" (Json.num ds.length)) := by
    simp [computeCount, pyDictGet, hlist', pyLen, Except.map]
  have hdocs' : List.mapM.loop docView ds [] = .ok dvs := hdocs
  refine ⟨?_, ?_, ?_, ?_⟩
  · simp [process_document, hup, hgen, hparse]
  · simp [renderStep4, ht, hc, pyDictGet, hlist', pyIterate, hdocs']
  · intro h
    simp [summaryOf, pyDictGet, h]
  · intro m h
    simp [docViewObj, pyDictGet, h]

set_option maxRecDepth 400000 in
/-- C5 witness: a response whose single missing document carries only a
`year`, so every other per-document field and every summary field is filled
by its default. -/
theorem c5_defaults_witness :
    process_document envConforming "Token Payment" = Json.obj kvsConforming ∧
    renderStep4 ⟨some (Json.obj kvsConforming), true⟩ =
      .report (summaryOf kvsConforming)
        (GapsView.unlocked [docViewObj [("year", Json.str "1995")]]) ∧
    (List.lookup "risk_score" kvsConforming = none →
      (summaryOf kvsConforming).risk_score = Json.str "Unknown") ∧
    (∀ m, List.lookup "doc_no" m = none → (docViewObj m).doc_no = Json.str "N/A") :=
  c5_defaults envConforming "Token Payment"
    "\x7b\"missing_docs_list\": [\x7b\"year\": \"1995\"\x7d]\x7d" kvsConforming
    [Json.obj [("year", Json.str "1995")]] [docViewObj [("year", Json.str "1995")]]
    rfl rfl rfl (List.cons_ne_nil _ _) rfl rfl

set_option maxRecDepth 400000 in
/-- C6 counterexample: the AI answers with the valid JSON document `3`; the
handler's `"error" in result` test raises `TypeError` on the stored int and
the temporary file is not removed on this exception exit path. -/
theorem c6_counterexample :
    (analyzeClicked true true envNonDict "Negotiation" ⟨none, false⟩).tempRemoved = false ∧
    (analyzeClicked true true envNonDict "Negotiation" ⟨none, false⟩).exit =
      .raised "TypeError: argument of type \x27int\x27 is not iterable" :=
  ⟨rfl, rfl⟩

/-- C6 (corrected): the temporary file is removed on every non-exception exit
of the analyze handler — validation failure, tagged-error display, and
stored-result paths alike; only an uncaught Python exception raised while
inspecting the result (possible because there is no `finally`) skips the
removal. -/
theorem c6_cleanup_unless_raised (hasFile hasKey : Bool) (env : GenaiEnv)
    (stage : String) (s : Session)
    (hraise : ∀ m, (analyzeClicked hasFile hasKey env stage s).exit ≠ .raised m) :
    (analyzeClicked hasFile hasKey env stage s).tempRemoved = true := by
  by_cases hv : (!hasFile || !hasKey) = true
  · simp [analyzeClicked, hv]
  · cases hin : pyIn "error" (process_document env stage) with
    | error m =>
      exact absurd (by simp [analyzeClicked, hv, hin]) (hraise m)
    | ok b =>
      cases b with
      | true =>
        cases hsub : pySubscript (process_document env stage) "error" with
        | error m =>
          exact absurd (by simp [analyzeClicked, hv, hin, hsub]) (hraise m)
        | ok v => simp [analyzeClicked, hv, hin, hsub]
      | false => simp [analyzeClicked, hv, hin]

set_option maxRecDepth 400000 in
/-- C6 witness: a well-formed response is parsed, stored, and the temporary
file is removed. -/
theorem c6_cleanup_witness :
    (analyzeClicked true true envConforming "Negotiation" ⟨none, false⟩).tempRemoved = true :=
  c6_cleanup_unless_raised true true envConforming "Negotiation" ⟨none, false⟩
    (fun m h => nomatch h)

/-- C8: whenever the analysis client fails — upload/poll exception, generation
exception, or a response that is not valid JSON after fence-stripping — the
handler displays the tagged message via `st.error` without crashing and
leaves the session (the stored analysis result and paywall flag) unchanged,
so the user may retry. -/
theorem c8_error_leaves_session (env : GenaiEnv) (stage : String) (s : Session)
    (herr : (∃ e, env.upload = .error e) ∨ (∃ e, env.generate = .error e) ∨
      (∃ t m, env.generate = .ok t ∧ jsonLoads (stripFences t) = .error m)) :
    (analyzeClicked true true env stage s).session = s ∧
    ∃ msg, (analyzeClicked true true env stage s).exit = .errorShown (Json.str msg) := by
  have hres : ∃ m, process_document env stage = errObj m := by
    rcases herr with ⟨e, he⟩ | ⟨e, he⟩ | ⟨t, m, ht, hm⟩
    · exact ⟨"Upload Failed: " ++ e, by simp [process_document, he]⟩
    · cases hu : env.upload with
      | error e2 => exact ⟨"Upload Failed: " ++ e2, by simp [process_document, hu]⟩
      | ok u =>
        cases u
        exact ⟨"AI Failed: " ++ e, by simp [process_document, hu, he]⟩
    · cases hu : env.upload with
      | error e2 => exact ⟨"Upload Failed: " ++ e2, by simp [process_document, hu]⟩
      | ok u =>
        cases u
        exact ⟨"AI Failed: " ++ m, by simp [process_document, hu, ht, hm]⟩
  obtain ⟨m, hm⟩ := hres
  have hin : pyIn "error" (errObj m) = .ok true := rfl
  have hsub : pySubscript (errObj m) "error" = .ok (Json.str m) := rfl
  constructor
  · simp [analyzeClicked, hm, hin, hsub]
  · exact ⟨m, by simp [analyzeClicked, hm, hin, hsub]⟩

/-- C8 witness: a failing upload leaves the fresh session unchanged and shows
the tagged error. -/
theorem c8_error_leaves_session_witness :
    (analyzeClicked true true envUploadFail "Negotiation" ⟨none, false⟩).session = ⟨none, false⟩ ∧
    ∃ msg, (analyzeClicked true true envUploadFail "Negotiation" ⟨none, false⟩).exit =
      .errorShown (Json.str msg) :=
  c8_error_leaves_session envUploadFail "Negotiation" ⟨none, false⟩ (Or.inl ⟨"403 auth", rfl⟩)
